import Mathlib

/-!
Verification of the RBAC authorization layer, the assessment scoring rule and
the activity/support-plan state transitions of the ECSES-Django repository.

The definitions below are a shallow embedding of the Python source:
* `earlycare/permissions.py` — the `can_*` predicates, `role_required` and
  `get_user_accessible_children`;
* `earlycare/models.py` — `Assessment.save` and the entity records;
* `earlycare/views.py` — `child_new` (its authorization outcome) and
  `support_plan_edit`;
* `learnlytics/views.py` — `start_activity` and `continue_activity`.

Django users are modelled by an id, the `is_authenticated` and `is_superuser`
flags, and an optional profile role: `profileRole = none` models a user object
with no `userprofile` attribute (so `hasattr(user, 'userprofile')` is
`profileRole.isSome`, and `hasattr(...) and user.userprofile.role == r` is
`profileRole == some r`).  Foreign keys are modelled by user ids; the Python
`child.parent == user` object comparison becomes an id comparison, and the
nullable `child.teacher` becomes `Option Nat` (in Python, `None == user` is
falsy, which `Option.some u.id ≠ none` reproduces).  Database floats are
modelled by `Rat`: the one derived float, `overall_score`, is a mean of small
integers, which `Rat` represents exactly.
-/

namespace ECSES

/-- A Django `User` together with its optional `UserProfile.role`. -/
structure User where
  id : Nat
  is_authenticated : Bool
  is_superuser : Bool
  profileRole : Option String
deriving DecidableEq

/-- `earlycare.models.Child`: `parent` is a non-null FK to `User`,
`teacher` is a nullable FK. -/
structure Child where
  id : Nat
  parent : Nat
  teacher : Option Nat
deriving DecidableEq

/-- `earlycare.models.Assessment`: the five nullable 1–5 sub-scores and the
derived `overall_score`.  The `child` FK is embedded as the related record,
mirroring Django object traversal. -/
structure Assessment where
  id : Nat
  child : Child
  assessor : Nat
  motor_score : Option Int
  cognitive_score : Option Int
  language_score : Option Int
  social_score : Option Int
  adaptive_score : Option Int
  overall_score : Option Rat
deriving DecidableEq

/-- `earlycare.models.SupportPlan` (the fields touched by
`support_plan_edit`; `review_date`/`next_review` are kept as the truthy POST
value or `none`, as in the view). -/
structure SupportPlan where
  id : Nat
  child : Child
  created_by : Nat
  status : String
  goals : String
  strategies : String
  resources_needed : String
  timeline : String
  review_date : Option String
  next_review : Option String
  progress_notes : String
deriving DecidableEq

/-- `earlycare.models.ProgressReport` (the fields the permission checks
inspect). -/
structure ProgressReport where
  id : Nat
  child : Child
  created_by : Nat
deriving DecidableEq

/-- `learnlytics.models.ActivityAssignment` (the fields `start_activity` and
`continue_activity` inspect; timestamps are abstract `Nat` instants). -/
structure ActivityAssignment where
  id : Nat
  status : String
  started_at : Option Nat
deriving DecidableEq

/-- `permissions.can_view_child`. -/
def can_view_child (user : User) (child : Child) : Bool :=
  if !user.is_authenticated then false
  else if user.is_superuser || user.profileRole == some "admin" then true
  else if user.profileRole == some "parent" then child.parent == user.id
  else if user.profileRole == some "teacher" then child.teacher == some user.id
  else false

/-- `permissions.can_edit_child`. -/
def can_edit_child (user : User) (child : Child) : Bool :=
  if !user.is_authenticated then false
  else if user.is_superuser || user.profileRole == some "admin" then true
  else if user.profileRole == some "parent" then child.parent == user.id
  else if user.profileRole == some "teacher" then child.teacher == some user.id
  else false

/-- `permissions.can_delete_child`. -/
def can_delete_child (user : User) (child : Child) : Bool :=
  if !user.is_authenticated then false
  else if user.is_superuser || user.profileRole == some "admin" then true
  else if user.profileRole == some "parent" then child.parent == user.id
  else false

/-- `permissions.can_create_assessment` (`role in ['admin', 'teacher']`
expanded over the two literals). -/
def can_create_assessment (user : User) (child : Child) : Bool :=
  if !user.is_authenticated then false
  else if user.is_superuser || user.profileRole == some "admin"
      || user.profileRole == some "teacher" then
    can_view_child user child
  else false

/-- `permissions.can_edit_assessment`. -/
def can_edit_assessment (user : User) (assessment : Assessment) : Bool :=
  if !user.is_authenticated then false
  else if user.is_superuser || user.profileRole == some "admin" then true
  else if user.profileRole == some "teacher" then assessment.assessor == user.id
  else false

/-- `permissions.can_delete_assessment`. -/
def can_delete_assessment (user : User) (_assessment : Assessment) : Bool :=
  if !user.is_authenticated then false
  else user.is_superuser || user.profileRole == some "admin"

/-- `permissions.can_view_support_plan`. -/
def can_view_support_plan (user : User) (support_plan : SupportPlan) : Bool :=
  if !user.is_authenticated then false
  else if user.is_superuser || user.profileRole == some "admin" then true
  else can_view_child user support_plan.child

/-- `permissions.can_edit_support_plan`. -/
def can_edit_support_plan (user : User) (support_plan : SupportPlan) : Bool :=
  if !user.is_authenticated then false
  else if user.is_superuser || user.profileRole == some "admin" then true
  else if user.profileRole == some "teacher" then
    support_plan.created_by == user.id || support_plan.child.teacher == some user.id
  else false

/-- `permissions.can_create_support_plan`. -/
def can_create_support_plan (user : User) (child : Child) : Bool :=
  if !user.is_authenticated then false
  else if user.is_superuser || user.profileRole == some "admin"
      || user.profileRole == some "teacher" then
    can_view_child user child
  else false

/-- `permissions.can_view_progress_report`. -/
def can_view_progress_report (user : User) (report : ProgressReport) : Bool :=
  if !user.is_authenticated then false
  else if user.is_superuser || user.profileRole == some "admin" then true
  else if can_view_child user report.child then true
  else if user.profileRole == some "teacher" then report.created_by == user.id
  else false

/-- `permissions.can_edit_progress_report`. -/
def can_edit_progress_report (user : User) (report : ProgressReport) : Bool :=
  if !user.is_authenticated then false
  else if user.is_superuser || user.profileRole == some "admin" then true
  else if user.profileRole == some "teacher" then report.created_by == user.id
  else false

/-- `permissions.can_create_progress_report`. -/
def can_create_progress_report (user : User) (child : Child) : Bool :=
  if !user.is_authenticated then false
  else if user.is_superuser || user.profileRole == some "admin"
      || user.profileRole == some "teacher" then
    can_view_child user child
  else false

/-- `permissions.get_user_accessible_children`; the `Child` table is passed
explicitly as a list and the Django querysets become list filters. -/
def get_user_accessible_children (user : User) (db : List Child) : List Child :=
  if !user.is_authenticated then []
  else if user.is_superuser || user.profileRole == some "admin" then db
  else if user.profileRole == some "parent" then
    db.filter (fun c => c.parent == user.id)
  else if user.profileRole == some "teacher" then
    db.filter (fun c => c.teacher == some user.id)
  else []

/-- Outcome of the `role_required` decorator's wrapper around a view. -/
inductive ViewAccess where
  | redirectLogin : ViewAccess
  | redirectHome : ViewAccess
  | runView : ViewAccess
deriving DecidableEq

/-- `permissions.role_required(*allowed_roles)` applied to a request's user:
the guard sequence is authentication, profile existence, superuser, then
`user_role in allowed_roles or 'admin' in allowed_roles`, exactly as in the
source. -/
def role_required (allowed_roles : List String) (user : User) : ViewAccess :=
  if !user.is_authenticated then ViewAccess.redirectLogin
  else
    match user.profileRole with
    | none => ViewAccess.redirectHome
    | some user_role =>
      if user.is_superuser then ViewAccess.runView
      else if allowed_roles.contains user_role || allowed_roles.contains "admin" then
        ViewAccess.runView
      else ViewAccess.redirectHome

/-- `views.child_new` is decorated `@role_required('admin', 'parent')`; if the
decorator runs the view and the POSTed required fields are present, a `Child`
row with `parent = request.user` is created. -/
def child_new_creates_child (user : User) (form_valid : Bool) : Bool :=
  match role_required ["admin", "parent"] user with
  | ViewAccess.runView => form_valid
  | _ => false

/-- The non-null sub-scores of an assessment, in the source's order
(`[motor, cognitive, language, social, adaptive]` filtered of `None`). -/
def Assessment.valid_scores (a : Assessment) : List Int :=
  ([a.motor_score, a.cognitive_score, a.language_score,
    a.social_score, a.adaptive_score]).filterMap (fun s => s)

/-- The source's `sum(valid_scores) / len(valid_scores)` (meaningful only
when at least one sub-score is non-null). -/
def Assessment.mean_score (a : Assessment) : Rat :=
  (a.valid_scores.map (fun s => (s : Rat))).sum / (a.valid_scores.length : Rat)

/-- `Assessment.save`: recompute `overall_score` as the mean of the non-null
sub-scores when at least one is present, then persist; with no non-null
sub-score the record is persisted as-is (`overall_score` untouched). -/
def Assessment.save (a : Assessment) : Assessment :=
  if !a.valid_scores.isEmpty then
    { a with overall_score := some a.mean_score }
  else a

/-- The POST dictionary fields `views.support_plan_edit` reads (`none` models
an absent or falsy value). -/
structure SupportPlanPost where
  status : Option String
  goals : Option String
  strategies : Option String
  resources_needed : Option String
  timeline : Option String
  review_date : Option String
  next_review : Option String
  progress_notes : Option String
deriving DecidableEq

/-- `views.support_plan_edit` on a POST request: denied edits leave the plan
unchanged; an authorized edit copies the POSTed fields (status defaulting to
the current one) and never touches `child` or `created_by`. -/
def support_plan_edit (user : User) (plan : SupportPlan)
    (post : SupportPlanPost) : SupportPlan :=
  if !(can_edit_support_plan user plan) then plan
  else
    { plan with
      status := post.status.getD plan.status,
      goals := post.goals.getD "",
      strategies := post.strategies.getD "",
      resources_needed := post.resources_needed.getD "",
      timeline := post.timeline.getD "",
      review_date := post.review_date,
      next_review := post.next_review,
      progress_notes := post.progress_notes.getD "" }

/-- The uncaught exception both activity handlers can raise: Django's
`FieldError`, thrown when a queryset keyword names a field the model does not
have. -/
inductive HandlerError where
  | fieldError : HandlerError
deriving DecidableEq

/-- The names a queryset lookup may traverse from `earlycare.models.Child`:
its concrete fields (`models.py:14-29` plus the implicit `id`) and the
reverse relations onto Child declared by `Assessment`, `SupportPlan`,
`ProgressReport`, `ActivityAssignment`, `ChildBadge`, `PerformanceMetric`,
`Report` and `UserProfile`.  There is no field or relation named `user`. -/
def childLookupNames : List String :=
  ["id", "first_name", "last_name", "date_of_birth", "gender", "parent",
   "teacher", "medical_conditions", "emergency_contact", "emergency_phone",
   "created_at", "updated_at", "is_active",
   "assessments", "support_plan", "progress_reports", "assigned_activities",
   "earned_badges", "performance_metrics", "reports", "parents", "teachers"]

/-- Resolution of the second step of the `child__<field>` lookup both
handlers pass to `get_object_or_404(ActivityAssignment, ...)`: Django
validates the keyword against the Child model before touching any row and
raises `FieldError` when the name is unknown. -/
def resolve_child_lookup (field : String) : Except HandlerError Unit :=
  if childLookupNames.contains field then Except.ok ()
  else Except.error HandlerError.fieldError

/-- `learnlytics.views.start_activity`: the handler first fetches via
`get_object_or_404(ActivityAssignment, id=assignment_id,
child__user=request.user)`, whose `child__user` lookup must resolve; only
then does the status check run on the fetched assignment `a` — from
`assigned` it moves to `in_progress` stamping `started_at := now` and reports
success, from any other status it reports failure and mutates nothing. -/
def start_activity (now : Nat) (a : ActivityAssignment) :
    Except HandlerError (Bool × ActivityAssignment) :=
  match resolve_child_lookup "user" with
  | Except.error e => Except.error e
  | Except.ok _ =>
    if a.status == "assigned" then
      Except.ok (true, { a with status := "in_progress", started_at := some now })
    else Except.ok (false, a)

/-- `learnlytics.views.continue_activity`: same
`child__user`-scoped fetch as `start_activity`, then a status check that
never mutates and succeeds exactly from `in_progress`. -/
def continue_activity (a : ActivityAssignment) :
    Except HandlerError (Bool × ActivityAssignment) :=
  match resolve_child_lookup "user" with
  | Except.error e => Except.error e
  | Except.ok _ =>
    if a.status == "in_progress" then Except.ok (true, a)
    else Except.ok (false, a)

/-! Concrete actors and records used by the scenario claims and witnesses. -/

/-- An authenticated non-superuser with role `admin`. -/
def adminUser : User := { id := 1, is_authenticated := true, is_superuser := false, profileRole := some "admin" }

/-- An authenticated superuser with no `userprofile` at all. -/
def superNoProfile : User := { id := 2, is_authenticated := true, is_superuser := true, profileRole := none }

/-- Teacher T of the spec scenario, assigned to `childC1` only. -/
def teacherT : User := { id := 3, is_authenticated := true, is_superuser := false, profileRole := some "teacher" }

/-- Parent P of the spec scenario, owning `childC2` only. -/
def parentP : User := { id := 4, is_authenticated := true, is_superuser := false, profileRole := some "parent" }

/-- An authenticated non-superuser with role `child`. -/
def childRoleUser : User := { id := 5, is_authenticated := true, is_superuser := false, profileRole := some "child" }

/-- An unauthenticated user. -/
def anonUser : User := { id := 6, is_authenticated := false, is_superuser := false, profileRole := none }

/-- An authenticated non-superuser with no `userprofile`. -/
def noProfileUser : User := { id := 7, is_authenticated := true, is_superuser := false, profileRole := none }

/-- Child C1: some other parent, teacher `teacherT`. -/
def childC1 : Child := { id := 1, parent := 40, teacher := some 3 }

/-- Child C2: parent `parentP`, no teacher. -/
def childC2 : Child := { id := 2, parent := 4, teacher := none }

/-- An assessment on `childC1` authored by `teacherT`. -/
def assessT1 : Assessment :=
  { id := 1, child := childC1, assessor := 3,
    motor_score := some 4, cognitive_score := none, language_score := some 3,
    social_score := some 5, adaptive_score := none, overall_score := none }

/-- An assessment created with sub-scores `[4, None, 3, 5, None]`. -/
def exampleAssessment : Assessment :=
  { id := 2, child := childC2, assessor := 3,
    motor_score := some 4, cognitive_score := none, language_score := some 3,
    social_score := some 5, adaptive_score := none, overall_score := none }

/-- An assessment whose five sub-scores have all been cleared after its
`overall_score` was previously computed (reachable through
`views.assessment_edit`, which sets each absent POST score to `None`). -/
def staleAssessment : Assessment :=
  { id := 3, child := childC2, assessor := 3,
    motor_score := none, cognitive_score := none, language_score := none,
    social_score := none, adaptive_score := none, overall_score := some 4 }

/-- A draft support plan on `childC1` created by `teacherT`. -/
def draftPlan : SupportPlan :=
  { id := 1, child := childC1, created_by := 3, status := "draft",
    goals := "g", strategies := "s", resources_needed := "", timeline := "",
    review_date := none, next_review := none, progress_notes := "" }

/-- A progress report on `childC1` created by `teacherT`. -/
def reportT1 : ProgressReport := { id := 1, child := childC1, created_by := 3 }

/-- A POST that sets the plan status to `active`. -/
def activatePost : SupportPlanPost :=
  { status := some "active", goals := some "g", strategies := some "s",
    resources_needed := none, timeline := none, review_date := none,
    next_review := none, progress_notes := none }

/-- A fresh activity assignment. -/
def assignmentA : ActivityAssignment := { id := 1, status := "assigned", started_at := none }

/-- C1: every view/edit/delete permission predicate over Child, Assessment,
SupportPlan and ProgressReport returns true for any authenticated superuser
or `admin`-role actor, whatever the target's parent/teacher/assessor/creator
links are; the admin/superuser test precedes every entity-specific
condition. -/
theorem admin_override_all_checks
    (u : User) (c : Child) (a : Assessment) (sp : SupportPlan) (pr : ProgressReport)
    (hauth : u.is_authenticated = true)
    (hadmin : u.is_superuser = true ∨ u.profileRole = some "admin") :
    can_view_child u c = true ∧ can_edit_child u c = true ∧ can_delete_child u c = true ∧
    can_edit_assessment u a = true ∧ can_delete_assessment u a = true ∧
    can_view_support_plan u sp = true ∧ can_edit_support_plan u sp = true ∧
    can_view_progress_report u pr = true ∧ can_edit_progress_report u pr = true := by
  rcases hadmin with h | h <;>
    simp [can_view_child, can_edit_child, can_delete_child, can_edit_assessment,
      can_delete_assessment, can_view_support_plan, can_edit_support_plan,
      can_view_progress_report, can_edit_progress_report, hauth, h]

/-- Witness for C1 at a concrete `admin`-role actor and concrete records. -/
theorem admin_override_all_checks_witness :
    can_view_child adminUser childC1 = true ∧ can_edit_child adminUser childC1 = true ∧
    can_delete_child adminUser childC1 = true ∧
    can_edit_assessment adminUser assessT1 = true ∧
    can_delete_assessment adminUser assessT1 = true ∧
    can_view_support_plan adminUser draftPlan = true ∧
    can_edit_support_plan adminUser draftPlan = true ∧
    can_view_progress_report adminUser reportT1 = true ∧
    can_edit_progress_report adminUser reportT1 = true :=
  admin_override_all_checks adminUser childC1 assessT1 draftPlan reportT1 rfl (Or.inr rfl)

/-- C2: an unauthenticated actor is denied by every `can_*` check and gets an
empty accessible-children set, and an authenticated non-superuser with no
profile is denied by every `can_*` check. -/
theorem fail_closed_denies_all
    (u : User) (c : Child) (a : Assessment) (sp : SupportPlan) (pr : ProgressReport)
    (db : List Child) :
    (u.is_authenticated = false →
      can_view_child u c = false ∧ can_edit_child u c = false ∧
      can_delete_child u c = false ∧ can_create_assessment u c = false ∧
      can_edit_assessment u a = false ∧ can_delete_assessment u a = false ∧
      can_view_support_plan u sp = false ∧ can_edit_support_plan u sp = false ∧
      can_create_support_plan u c = false ∧ can_view_progress_report u pr = false ∧
      can_edit_progress_report u pr = false ∧ can_create_progress_report u c = false ∧
      get_user_accessible_children u db = [])
    ∧ (u.is_authenticated = true → u.is_superuser = false → u.profileRole = none →
      can_view_child u c = false ∧ can_edit_child u c = false ∧
      can_delete_child u c = false ∧ can_create_assessment u c = false ∧
      can_edit_assessment u a = false ∧ can_delete_assessment u a = false ∧
      can_view_support_plan u sp = false ∧ can_edit_support_plan u sp = false ∧
      can_create_support_plan u c = false ∧ can_view_progress_report u pr = false ∧
      can_edit_progress_report u pr = false ∧ can_create_progress_report u c = false) := by
  constructor
  · intro h
    simp [can_view_child, can_edit_child, can_delete_child, can_create_assessment,
      can_edit_assessment, can_delete_assessment, can_view_support_plan,
      can_edit_support_plan, can_create_support_plan, can_view_progress_report,
      can_edit_progress_report, can_create_progress_report,
      get_user_accessible_children, h]
  · intro h1 h2 h3
    simp [can_view_child, can_edit_child, can_delete_child, can_create_assessment,
      can_edit_assessment, can_delete_assessment, can_view_support_plan,
      can_edit_support_plan, can_create_support_plan, can_view_progress_report,
      can_edit_progress_report, can_create_progress_report, h1, h2, h3]

/-- Witness for C2 at the concrete unauthenticated and profile-less actors. -/
theorem fail_closed_denies_all_witness :
    (can_view_child anonUser childC1 = false ∧ can_edit_child anonUser childC1 = false ∧
      can_delete_child anonUser childC1 = false ∧
      can_create_assessment anonUser childC1 = false ∧
      can_edit_assessment anonUser assessT1 = false ∧
      can_delete_assessment anonUser assessT1 = false ∧
      can_view_support_plan anonUser draftPlan = false ∧
      can_edit_support_plan anonUser draftPlan = false ∧
      can_create_support_plan anonUser childC1 = false ∧
      can_view_progress_report anonUser reportT1 = false ∧
      can_edit_progress_report anonUser reportT1 = false ∧
      can_create_progress_report anonUser childC1 = false ∧
      get_user_accessible_children anonUser [childC1, childC2] = [])
    ∧ can_view_child noProfileUser childC1 = false :=
  ⟨(fail_closed_denies_all anonUser childC1 assessT1 draftPlan reportT1
      [childC1, childC2]).1 rfl,
   ((fail_closed_denies_all noProfileUser childC1 assessT1 draftPlan reportT1
      []).2 rfl rfl rfl).1⟩

/-- C3: `get_user_accessible_children` returns the whole table for
admin/superuser actors, exactly the children parented by a `parent`-role
actor, exactly the children assigned to a `teacher`-role actor, and nothing
for anyone else; in particular a (non-superuser) `parent`-role actor's result
contains each of their children and only children they parent. -/
theorem accessible_children_by_role (u : User) (db : List Child)
    (hauth : u.is_authenticated = true) :
    ((u.is_superuser = true ∨ u.profileRole = some "admin") →
      get_user_accessible_children u db = db)
    ∧ (u.is_superuser = false → u.profileRole = some "parent" →
      get_user_accessible_children u db = db.filter (fun c => c.parent == u.id))
    ∧ (u.is_superuser = false → u.profileRole = some "teacher" →
      get_user_accessible_children u db = db.filter (fun c => c.teacher == some u.id))
    ∧ (u.is_superuser = false → u.profileRole ≠ some "admin" →
      u.profileRole ≠ some "parent" → u.profileRole ≠ some "teacher" →
      get_user_accessible_children u db = [])
    ∧ (u.is_superuser = false → u.profileRole = some "parent" →
      ∀ c ∈ db, c.parent = u.id →
        c ∈ get_user_accessible_children u db ∧
        ∀ c2 ∈ get_user_accessible_children u db, c2.parent = u.id) := by
  refine ⟨?_, ?_, ?_, ?_, ?_⟩
  · rintro (h | h) <;> simp [get_user_accessible_children, hauth, h]
  · intro h1 h2
    simp [get_user_accessible_children, hauth, h1, h2]
  · intro h1 h2
    simp [get_user_accessible_children, hauth, h1, h2]
  · intro h1 h2 h3 h4
    simp [get_user_accessible_children, hauth, h1, beq_iff_eq, h2, h3, h4]
  · intro h1 h2 c hc hp
    have hres : get_user_accessible_children u db
        = db.filter (fun c => c.parent == u.id) := by
      simp [get_user_accessible_children, hauth, h1, h2]
    rw [hres]
    constructor
    · simp [List.mem_filter, hc, hp]
    · intro c2 hc2
      simp only [List.mem_filter, beq_iff_eq] at hc2
      exact hc2.2

/-- Witness for C3 at the concrete parent `parentP` with table
`[childC1, childC2]`. -/
theorem accessible_children_by_role_witness :
    get_user_accessible_children parentP [childC1, childC2]
      = List.filter (fun c => c.parent == parentP.id) [childC1, childC2]
    ∧ (childC2 ∈ get_user_accessible_children parentP [childC1, childC2]
      ∧ ∀ c2 ∈ get_user_accessible_children parentP [childC1, childC2],
          c2.parent = parentP.id) :=
  ⟨(accessible_children_by_role parentP [childC1, childC2] rfl).2.1 rfl rfl,
   (accessible_children_by_role parentP [childC1, childC2] rfl).2.2.2.2 rfl rfl
     childC2 (by simp) rfl⟩

/-- C4: for an authenticated non-superuser, a `teacher`-role actor views a
child iff the child's `teacher` field is that actor and a `parent`-role actor
views a child iff the child's `parent` field is that actor; the spec's
T/P/C1/C2 scenario holds concretely. -/
theorem can_view_child_teacher_parent (u : User) (c : Child)
    (hauth : u.is_authenticated = true) (hsup : u.is_superuser = false) :
    ((u.profileRole = some "teacher" →
        (can_view_child u c = true ↔ c.teacher = some u.id))
      ∧ (u.profileRole = some "parent" →
        (can_view_child u c = true ↔ c.parent = u.id)))
    ∧ (can_view_child teacherT childC1 = true ∧ can_view_child teacherT childC2 = false
      ∧ can_view_child parentP childC2 = true ∧ can_view_child parentP childC1 = false) := by
  refine ⟨⟨?_, ?_⟩, by decide⟩
  · intro h
    simp [can_view_child, hauth, hsup, h]
  · intro h
    simp [can_view_child, hauth, hsup, h]

/-- Witness for C4: the scenario instances, obtained from the theorem at the
concrete teacher. -/
theorem can_view_child_teacher_parent_witness :
    can_view_child teacherT childC1 = true ∧ can_view_child teacherT childC2 = false
    ∧ can_view_child parentP childC2 = true ∧ can_view_child parentP childC1 = false :=
  (can_view_child_teacher_parent teacherT childC1 rfl rfl).2

/-- C5 (code bug): `role_required('admin', 'parent')` lets ANY authenticated
profiled non-superuser through, because `'admin' in allowed_roles` is a test
on the decorator's argument list, not on the user's role; so a `teacher`- or
`child`-role actor reaches `child_new` and a Child row is created for a valid
form, contradicting the view's own docstring "Only admin and parents can
create children". -/
theorem child_new_admits_teacher_and_child_roles :
    role_required ["admin", "parent"] teacherT = ViewAccess.runView
    ∧ role_required ["admin", "parent"] childRoleUser = ViewAccess.runView
    ∧ child_new_creates_child teacherT true = true
    ∧ child_new_creates_child childRoleUser true = true := by decide

/-- C6 counterexample: an assessment whose five sub-scores are all null but
whose `overall_score` was previously computed (reachable via
`assessment_edit`) keeps its stale non-null `overall_score` after save,
instead of being left null/absent. -/
theorem assessment_save_stale_overall_counterexample :
    staleAssessment.motor_score = none ∧ staleAssessment.cognitive_score = none ∧
    staleAssessment.language_score = none ∧ staleAssessment.social_score = none ∧
    staleAssessment.adaptive_score = none ∧
    (Assessment.save staleAssessment).overall_score = some 4 ∧
    (Assessment.save staleAssessment).overall_score ≠ none := by decide

/-- C6 (amended): on save, if at least one sub-score is non-null,
`overall_score` becomes the arithmetic mean of the non-null sub-scores
(sub-scores `[4, None, 3, 5, None]` yield `4`); otherwise the record — its
`overall_score` included — is left unchanged (so it stays null only when it
already was null). -/
theorem assessment_save_mean_of_valid_scores (a : Assessment) :
    (a.valid_scores ≠ [] →
      (Assessment.save a).overall_score = some a.mean_score)
    ∧ (a.valid_scores = [] → Assessment.save a = a)
    ∧ (Assessment.save exampleAssessment).overall_score = some 4 := by
  refine ⟨?_, ?_, ?_⟩
  · intro h
    have h2 : a.valid_scores.isEmpty = false := by
      cases hv : a.valid_scores with
      | nil => exact absurd hv h
      | cons x xs => rfl
    simp [Assessment.save, h2]
  · intro h
    simp [Assessment.save, h]
  · have h : exampleAssessment.valid_scores = [4, 3, 5] := by decide
    rw [Assessment.save]
    rw [h]
    simp [Assessment.mean_score, h]
    norm_num

/-- Witness for C6 (amended) at the spec's example assessment and at an
assessment with no non-null sub-score. -/
theorem assessment_save_mean_witness :
    (Assessment.save exampleAssessment).overall_score = some exampleAssessment.mean_score
    ∧ Assessment.save staleAssessment = staleAssessment :=
  ⟨(assessment_save_mean_of_valid_scores exampleAssessment).1 (by decide),
   (assessment_save_mean_of_valid_scores staleAssessment).2.1 (by decide)⟩

/-- C7: for an authenticated actor, `can_edit_assessment` holds iff the actor
is superuser/admin or is a `teacher`-role actor equal to the recorded
assessor; and the result is invariant under replacing the assessment's child,
so it is independent of current child assignment. -/
theorem can_edit_assessment_assessor_only (u : User) (a : Assessment)
    (hauth : u.is_authenticated = true) :
    (can_edit_assessment u a = true ↔
      (u.is_superuser = true ∨ u.profileRole = some "admin"
        ∨ (u.profileRole = some "teacher" ∧ a.assessor = u.id)))
    ∧ (∀ c : Child, can_edit_assessment u { a with child := c } = can_edit_assessment u a) := by
  constructor
  · cases hsup : u.is_superuser with
    | true => simp [can_edit_assessment, hauth, hsup]
    | false =>
      by_cases ha : u.profileRole = some "admin"
      · simp [can_edit_assessment, hauth, hsup, ha]
      · by_cases ht : u.profileRole = some "teacher"
        · simp [can_edit_assessment, hauth, hsup, ha, ht]
        · simp [can_edit_assessment, hauth, hsup, ha, ht]
  · intro c
    rfl

/-- Witness for C7: the recorded assessor `teacherT` may edit `assessT1`. -/
theorem can_edit_assessment_assessor_only_witness :
    can_edit_assessment teacherT assessT1 = true :=
  (can_edit_assessment_assessor_only teacherT assessT1 rfl).1.mpr
    (Or.inr (Or.inr ⟨rfl, rfl⟩))

/-- C8 (code bug): `earlycare.models.Child` has no field or relation named
`user`, so the `child__user` keyword in the fetch of both handlers raises
`FieldError` on every request, before any status comparison — `start` never
moves any assignment (here also at the concrete fresh `assigned` one) to
`in_progress` or stamps `started_at`, and `continue` never reaches its
`in_progress` check, contrary to the claimed transition behaviour, which is
plainly the handlers' intent. -/
theorem activity_handlers_raise_field_error :
    childLookupNames.contains "user" = false
    ∧ (∀ (now : Nat) (a : ActivityAssignment),
        start_activity now a = Except.error HandlerError.fieldError)
    ∧ (∀ a : ActivityAssignment,
        continue_activity a = Except.error HandlerError.fieldError)
    ∧ start_activity 100 assignmentA = Except.error HandlerError.fieldError
    ∧ continue_activity assignmentA = Except.error HandlerError.fieldError :=
  ⟨by decide, fun _ _ => rfl, fun _ => rfl, rfl, rfl⟩

/-- C9: an authorized edit of a `draft` support plan whose POST sets status
`active` persists the new status and leaves `created_by` and `child`
unchanged. -/
theorem support_plan_edit_roundtrip (u : User) (plan : SupportPlan)
    (post : SupportPlanPost)
    (_hdraft : plan.status = "draft")
    (hperm : can_edit_support_plan u plan = true)
    (hpost : post.status = some "active") :
    (support_plan_edit u plan post).status = "active"
    ∧ (support_plan_edit u plan post).created_by = plan.created_by
    ∧ (support_plan_edit u plan post).child = plan.child := by
  simp [support_plan_edit, hperm, hpost]

/-- Witness for C9: the creating teacher activates their draft plan. -/
theorem support_plan_edit_roundtrip_witness :
    (support_plan_edit teacherT draftPlan activatePost).status = "active"
    ∧ (support_plan_edit teacherT draftPlan activatePost).created_by
        = draftPlan.created_by
    ∧ (support_plan_edit teacherT draftPlan activatePost).child = draftPlan.child :=
  support_plan_edit_roundtrip teacherT draftPlan activatePost rfl (by decide) rfl

/-- C10: an authenticated superuser with no profile at all passes every
permission check (the superuser test precedes the profile-existence test) and
receives the full children table. -/
theorem superuser_no_profile_full_access
    (u : User) (c : Child) (a : Assessment) (sp : SupportPlan) (pr : ProgressReport)
    (db : List Child)
    (hauth : u.is_authenticated = true) (hsup : u.is_superuser = true)
    (hprof : u.profileRole = none) :
    can_view_child u c = true ∧ can_edit_child u c = true ∧
    can_delete_child u c = true ∧ can_create_assessment u c = true ∧
    can_edit_assessment u a = true ∧ can_delete_assessment u a = true ∧
    can_view_support_plan u sp = true ∧ can_edit_support_plan u sp = true ∧
    can_create_support_plan u c = true ∧ can_view_progress_report u pr = true ∧
    can_edit_progress_report u pr = true ∧ can_create_progress_report u c = true ∧
    get_user_accessible_children u db = db := by
  simp [can_view_child, can_edit_child, can_delete_child, can_create_assessment,
    can_edit_assessment, can_delete_assessment, can_view_support_plan,
    can_edit_support_plan, can_create_support_plan, can_view_progress_report,
    can_edit_progress_report, can_create_progress_report,
    get_user_accessible_children, hauth, hsup, hprof]

/-- Witness for C10 at the concrete profile-less superuser. -/
theorem superuser_no_profile_full_access_witness :
    can_view_child superNoProfile childC1 = true ∧
    can_edit_child superNoProfile childC1 = true ∧
    can_delete_child superNoProfile childC1 = true ∧
    can_create_assessment superNoProfile childC1 = true ∧
    can_edit_assessment superNoProfile assessT1 = true ∧
    can_delete_assessment superNoProfile assessT1 = true ∧
    can_view_support_plan superNoProfile draftPlan = true ∧
    can_edit_support_plan superNoProfile draftPlan = true ∧
    can_create_support_plan superNoProfile childC1 = true ∧
    can_view_progress_report superNoProfile reportT1 = true ∧
    can_edit_progress_report superNoProfile reportT1 = true ∧
    can_create_progress_report superNoProfile childC1 = true ∧
    get_user_accessible_children superNoProfile [childC1, childC2] = [childC1, childC2] :=
  superuser_no_profile_full_access superNoProfile childC1 assessT1 draftPlan reportT1
    [childC1, childC2] rfl rfl rfl

end ECSES
